import Mathlib

/-!
# Verification of the RVU preprints backend (src/backend/app.py)

A shallow embedding of the Flask backend's core logic: the preprint record
model, fake-DOI minting (`generate_fake_doi`), submission (`upload_preprint`),
listing with filters (`list_preprints`), and idempotent minting (`mint_doi`).

Conventions of the embedding:
* Python strings are Lean `String`s; `str.strip()` is `pyStrip` (drops
  whitespace on both ends), `str.lower()` is `pyLower` (ASCII lowering, as
  performed by SQLite's `lower()` and sufficient for the ASCII inputs at
  issue), truthiness of a string is non-emptiness.
* `datetime.datetime.utcnow()` is passed in explicitly as a `DateTime`
  value (year/month/day/hour/minute/second); `strftime("%Y%m%d%H%M%S")`
  is `fmtTs`.
* SQL `LIKE` is `likeMatch` (the standard `%`/`_` pattern semantics);
  SQLAlchemy's `ilike` lowers both sides first.
* The SQLite table is a list of records in insertion order together with the
  autoincrement counter (`AppState`); `ORDER BY uploaded_at DESC` is a stable
  merge sort by the timestamp key, descending.
* The Supabase blob store is an explicit collaborator value (`BlobStore`):
  its upload outcome (success, raised exception, or error dict) is an input,
  and the public-URL resolver is an opaque function.
* Flask responses are returned as structures carrying the HTTP status code,
  the JSON payload, the post-call state, and the list of attempted blob
  writes (used to express "no side effect before validation").
-/

namespace RVU

/-! ## Decimal rendering (Python `str(n)` and `f"{n:0wd}"`) -/

/-- One decimal digit `d < 10` as a character, `'0'`-based. -/
def digitChar (d : Nat) : Char := Char.ofNat (48 + d)

/-- Little-endian decimal digits of `n`, with explicit fuel so that the
kernel can evaluate it (structural recursion on the fuel). -/
def decDigitsAux : Nat → Nat → List Nat
  | 0, _ => []
  | fuel + 1, n => if n = 0 then [] else n % 10 :: decDigitsAux fuel (n / 10)

/-- Little-endian decimal digits of `n` (`[]` for `0`), matching
`Nat.digits 10 n`. -/
def decDigitsNat (n : Nat) : List Nat := decDigitsAux n n

/-- Python `str(n)` for a natural number: base-10, big-endian, no sign. -/
def decimalRepr (n : Nat) : String :=
  if n = 0 then "0" else ⟨((decDigitsNat n).reverse).map digitChar⟩

/-- Python `f"{n:0wd}"`: `str(n)` left-padded with zeros to width `w`. -/
def padNum (w n : Nat) : String :=
  let s := decimalRepr n
  ⟨List.replicate (w - s.data.length) '0' ++ s.data⟩

/-! ## Python string helpers -/

/-- Python `str.strip()`: remove leading and trailing whitespace. -/
def pyStrip (s : String) : String :=
  ⟨((s.data.dropWhile Char.isWhitespace).reverse.dropWhile Char.isWhitespace).reverse⟩

/-- ASCII lowering of one character (SQLite `lower()` / ASCII `str.lower()`). -/
def lowAscii (c : Char) : Char :=
  if 65 ≤ c.toNat ∧ c.toNat ≤ 90 then Char.ofNat (c.toNat + 32) else c

/-- Lowercase a whole string. -/
def pyLower (s : String) : String := ⟨s.data.map lowAscii⟩

/-- Python `str.replace(" ", "_")` (single-character replacement). -/
def spaceToUnderscore (s : String) : String :=
  ⟨s.data.map (fun c => if c = ' ' then '_' else c)⟩

/-! ## SQL LIKE -/

/-- Standard SQL `LIKE` pattern matching: `%` matches any sequence, `_`
matches any single character, anything else matches itself. -/
def likeMatch : List Char → List Char → Bool
  | [], [] => true
  | [], _ :: _ => false
  | c :: ps, s =>
    if c = '%' then
      likeMatch ps s ||
        (match s with
         | [] => false
         | _ :: t => likeMatch (c :: ps) t)
    else
      match s with
      | [] => false
      | d :: t => (if c = '_' then true else c == d) && likeMatch ps t
termination_by p s => (s.length, p.length)

/-- SQLAlchemy `ilike` on SQLite: `lower(column) LIKE lower(pattern)`. -/
def ilike (column pat : String) : Bool :=
  likeMatch (pyLower pat).data (pyLower column).data

/-! ## Timestamps -/

/-- A UTC wall-clock instant at second resolution (`datetime.datetime`). -/
structure DateTime where
  year : Nat
  month : Nat
  day : Nat
  hour : Nat
  minute : Nat
  second : Nat
deriving DecidableEq, Repr

/-- Total order key: the fields read as base-100 digits (chronological for
valid datetimes). -/
def DateTime.key (t : DateTime) : Nat :=
  ((((t.year * 100 + t.month) * 100 + t.day) * 100 + t.hour) * 100 + t.minute) * 100
    + t.second

/-- Field ranges of a real calendar datetime (with a four-digit year). -/
def DateTime.Valid (t : DateTime) : Prop :=
  1000 ≤ t.year ∧ t.year ≤ 9999 ∧ 1 ≤ t.month ∧ t.month ≤ 12 ∧ 1 ≤ t.day ∧
    t.day ≤ 31 ∧ t.hour ≤ 23 ∧ t.minute ≤ 59 ∧ t.second ≤ 59

instance (t : DateTime) : Decidable t.Valid := by
  unfold DateTime.Valid; infer_instance

/-- `now.strftime("%Y%m%d%H%M%S")`. -/
def fmtTs (t : DateTime) : String :=
  padNum 4 t.year ++ padNum 2 t.month ++ padNum 2 t.day ++ padNum 2 t.hour ++
    padNum 2 t.minute ++ padNum 2 t.second

/-! ## Data model -/

/-- One row of the `preprints` table. -/
structure Preprint where
  id : Nat
  title : String
  abstract : String
  category : String
  course_code : String
  authors : String
  faculty : String
  pdf_filename : String
  uploaded_at : DateTime
  version : Nat
  doi : Option String
  status : String
deriving DecidableEq, Repr

/-- The catalog store: rows in insertion order plus the autoincrement
counter for the next primary key. -/
structure AppState where
  records : List Preprint
  nextId : Nat
deriving DecidableEq, Repr

/-! ## Identifier minter (`generate_fake_doi`) -/

/-- `generate_fake_doi()` from app.py: counts the records whose `doi`
matches `LIKE "10.55555/rvu-preprints.<YYYY><MM>-%"` and appends the
4-digit zero-padded `count + 1`. The current UTC year and month are
explicit arguments. -/
def generate_fake_doi (records : List Preprint) (year month : Nat) : String :=
  let pre := "10.55555/rvu-preprints"
  let dateLabel := decimalRepr year ++ padNum 2 month
  let monthPre := pre ++ "." ++ dateLabel
  let count := records.countP (fun r =>
    match r.doi with
    | some d => likeMatch (monthPre ++ "-%").data d.data
    | none => false)
  let seq := padNum 4 (count + 1)
  monthPre ++ "-" ++ seq

/-! ## HTTP-facing operations -/

/-- The uploaded file part (`werkzeug.FileStorage`): its truthiness in
`if not ... file` is the truthiness of its filename. -/
structure FileStorage where
  filename : String
  content : List Nat
deriving DecidableEq, Repr

/-- `request.files.get("pdf_file")` truthiness. -/
def fileTruthy : Option FileStorage → Bool
  | none => false
  | some f => f.filename != ""

/-- The multipart form of `POST /api/preprints/`; `none` means the field is
absent from the form (so `request.form.get(key, default)` yields the
default). -/
structure UploadForm where
  title : Option String
  abstract : Option String
  category : Option String
  course_code : Option String
  authors : Option String
  faculty : Option String
  mint_doi : Option String
  pdf_file : Option FileStorage
deriving DecidableEq, Repr

/-- Outcome of `supabase.storage...upload(...)`: success, a raised
exception, or a returned error dict. -/
inductive BlobOutcome where
  | ok : BlobOutcome
  | exn : String → BlobOutcome
  | errDict : String → BlobOutcome
deriving DecidableEq, Repr

/-- The blob-store collaborator: the (injected) outcome of the next upload
and the `get_public_url` resolver. -/
structure BlobStore where
  outcome : BlobOutcome
  publicUrl : String → String

/-- Result of `upload_preprint`: HTTP status, the serialized record on
success, the error message on failure, the state after the call, and the
storage paths whose upload was attempted (to express side-effect order). -/
structure UploadResult where
  status : Nat
  record : Option Preprint
  error : Option String
  state : AppState
  blobWrites : List String

/-- `safe_name = f"{ts}_{original_name.replace(' ', '_')}"`. -/
def safeName (now : DateTime) (originalName : String) : String :=
  fmtTs now ++ "_" ++ spaceToUnderscore originalName

/-- `storage_path = f"preprints/{safe_name}"`. -/
def storagePath (now : DateTime) (originalName : String) : String :=
  "preprints/" ++ safeName now originalName

/-- `POST /api/preprints/` (`upload_preprint` in app.py). `now` is the value
of `datetime.datetime.utcnow()` during the call. -/
def upload_preprint (blob : BlobStore) (now : DateTime) (st : AppState)
    (form : UploadForm) : UploadResult :=
  let title := pyStrip (form.title.getD "")
  let abstract := pyStrip (form.abstract.getD "")
  let category := pyStrip (form.category.getD "uncategorized")
  let courseCode := pyStrip (form.course_code.getD "")
  let authors := pyStrip (form.authors.getD "")
  let faculty := pyStrip (form.faculty.getD "")
  let mintFlag := pyLower (form.mint_doi.getD "false") == "true"
  let file := form.pdf_file
  if title == "" || abstract == "" || !fileTruthy file then
    { status := 400, record := none,
      error := some "Missing required fields: title, abstract, pdf_file",
      state := st, blobWrites := [] }
  else
    let f := file.getD ⟨"", []⟩
    let originalName := if f.filename == "" then "paper.pdf" else f.filename
    let path := storagePath now originalName
    match blob.outcome with
    | .exn e =>
        { status := 500, record := none,
          error := some ("Failed to upload PDF to Supabase: " ++ e),
          state := st, blobWrites := [path] }
    | .errDict e =>
        { status := 500, record := none,
          error := some ("Failed to upload PDF to Supabase: " ++ e),
          state := st, blobWrites := [path] }
    | .ok =>
        let publicUrl := blob.publicUrl path
        let doi := if mintFlag
          then some (generate_fake_doi st.records now.year now.month)
          else none
        let row : Preprint :=
          { id := st.nextId, title := title, abstract := abstract,
            category := category, course_code := courseCode,
            authors := authors, faculty := faculty,
            pdf_filename := publicUrl, uploaded_at := now, version := 1,
            doi := doi, status := "submitted" }
        { status := 201, record := some row, error := none,
          state := { records := st.records ++ [row], nextId := st.nextId + 1 },
          blobWrites := [path] }

/-- The filtered (unsorted) row set of `GET /api/preprints/`: the two
optional filters applied in sequence, as in `list_preprints`. -/
def listFiltered (st : AppState) (qRaw catRaw : String) : List Preprint :=
  let q := pyLower (pyStrip qRaw)
  let category := pyLower (pyStrip catRaw)
  let query0 := st.records
  let query1 :=
    if q == "" then query0
    else query0.filter (fun r =>
      ilike r.title ("%" ++ q ++ "%") || ilike r.abstract ("%" ++ q ++ "%"))
  if category == "" then query1
  else query1.filter (fun r => r.category == category)

/-- `ORDER BY uploaded_at DESC`, modelled as a stable sort of the rows (in
insertion order) by the timestamp key, descending. -/
def uploadedDesc (a b : Preprint) : Bool :=
  decide (b.uploaded_at.key ≤ a.uploaded_at.key)

/-- `GET /api/preprints/` (`list_preprints` in app.py). -/
def list_preprints (st : AppState) (qRaw catRaw : String) : List Preprint :=
  (listFiltered st qRaw catRaw).mergeSort uploadedDesc

/-- Truthiness of `preprint.doi` (`None` and `""` are falsy). -/
def doiTruthy : Option String → Bool
  | none => false
  | some d => d != ""

/-- Set `doi` on the row with primary key `pid` (the first match, as the
ORM's `get`). -/
def setDoiFirst (pid : Nat) (d : String) : List Preprint → List Preprint
  | [] => []
  | r :: rs =>
      if r.id == pid then { r with doi := some d } :: rs
      else r :: setDoiFirst pid d rs

/-- `POST /api/preprints/<pid>/mint-doi/` (`mint_doi` in app.py): `none` is
the 404 of `get_or_404`; otherwise the HTTP status, the `doi` payload and
the state after the call. -/
def mint_doi (st : AppState) (pid : Nat) (now : DateTime) :
    Option (Nat × String × AppState) :=
  match st.records.find? (fun r => r.id == pid) with
  | none => none
  | some p =>
      if doiTruthy p.doi then some (200, p.doi.getD "", st)
      else
        let d := generate_fake_doi st.records now.year now.month
        some (201, d, { st with records := setDoiFirst pid d st.records })

/-! ## The DOI pattern of the spec

`matchesDoiShape s` states that `s` matches
`^10\.55555/rvu-preprints\.\d{6}-\d{4}$`. -/

/-- A decimal digit character. -/
def isDigitChar (c : Char) : Bool := 48 ≤ c.toNat && c.toNat ≤ 57

/-- `s` matches `^10\.55555/rvu-preprints\.\d{6}-\d{4}$`. -/
def matchesDoiShape (s : String) : Bool :=
  decide (s.data.length = 34) &&
    (s.data.take 23 == "10.55555/rvu-preprints.".data) &&
    ((s.data.drop 23).take 6).all isDigitChar &&
    ((s.data.drop 29).take 1 == ['-']) &&
    (s.data.drop 30).all isDigitChar

/-! ## Character and decimal-rendering lemmas -/

theorem char_toNat_ofNat_lt {n : Nat} (h : n < 55296) :
    (Char.ofNat n).toNat = n := by
  have hv : n.isValidChar := Or.inl h
  simp only [Char.ofNat, hv, dif_pos, Char.ofNatAux, Char.toNat, UInt32.toNat,
    BitVec.toNat_ofNatLt]

theorem digitChar_toNat {d : Nat} (h : d < 10) : (digitChar d).toNat = 48 + d := by
  unfold digitChar
  exact char_toNat_ofNat_lt (by omega)

theorem isDigitChar_digitChar {d : Nat} (h : d < 10) :
    isDigitChar (digitChar d) = true := by
  simp [isDigitChar, digitChar_toNat h]
  omega

theorem decDigitsAux_eq_digits :
    ∀ fuel n, n ≤ fuel → decDigitsAux fuel n = Nat.digits 10 n := by
  intro fuel
  induction fuel with
  | zero => intro n hn; interval_cases n; simp [decDigitsAux]
  | succ fuel ih =>
      intro n hn
      by_cases h0 : n = 0
      · simp [decDigitsAux, h0]
      · rw [decDigitsAux, if_neg h0,
          Nat.digits_of_two_le_of_pos (by norm_num) (Nat.pos_of_ne_zero h0),
          ih (n / 10) (by omega)]

theorem decDigitsNat_eq_digits (n : Nat) : decDigitsNat n = Nat.digits 10 n :=
  decDigitsAux_eq_digits n n le_rfl

theorem decimalRepr_all_digits (n : Nat) :
    (decimalRepr n).data.all isDigitChar = true := by
  unfold decimalRepr
  by_cases h0 : n = 0
  · simp [h0]
    decide
  · rw [if_neg h0]
    simp only [List.all_eq_true, List.mem_map, List.mem_reverse]
    rintro c ⟨d, hd, rfl⟩
    rw [decDigitsNat_eq_digits] at hd
    exact isDigitChar_digitChar (Nat.digits_lt_base (by norm_num) hd)

theorem decimalRepr_length_eq {n w : Nat} (h1 : 10 ^ w ≤ n) (h2 : n < 10 ^ (w + 1)) :
    (decimalRepr n).data.length = w + 1 := by
  have hn : n ≠ 0 := by
    have : 0 < 10 ^ w := Nat.pos_pow_of_pos w (by norm_num)
    omega
  unfold decimalRepr
  rw [if_neg hn]
  show (((decDigitsNat n).reverse).map digitChar).length = w + 1
  rw [List.length_map, List.length_reverse, decDigitsNat_eq_digits,
    Nat.digits_len 10 n (by norm_num) hn,
    Nat.log_eq_of_pow_le_of_lt_pow h1 h2]

theorem decimalRepr_length_le {n w : Nat} (h : n < 10 ^ w) (hw : 0 < w) :
    (decimalRepr n).data.length ≤ w := by
  by_cases h0 : n = 0
  · subst h0; simpa [decimalRepr] using hw
  · obtain ⟨v, h1, h2⟩ : ∃ v, 10 ^ v ≤ n ∧ n < 10 ^ (v + 1) := by
      refine ⟨Nat.log 10 n, Nat.pow_log_le_self 10 h0, Nat.lt_pow_succ_log_self (by norm_num) n⟩
    have := decimalRepr_length_eq h1 h2
    have hv : v + 1 ≤ w := by
      by_contra hc
      push_neg at hc
      have : 10 ^ w ≤ 10 ^ v := Nat.pow_le_pow_right (by norm_num) (by omega)
      omega
    omega

theorem padNum_length {n w : Nat} (h : (decimalRepr n).data.length ≤ w) :
    (padNum w n).data.length = w := by
  show (List.replicate (w - (decimalRepr n).data.length) '0' ++
    (decimalRepr n).data).length = w
  rw [List.length_append, List.length_replicate]
  omega

theorem padNum_all_digits (w n : Nat) : (padNum w n).data.all isDigitChar = true := by
  show (List.replicate (w - (decimalRepr n).data.length) '0' ++
    (decimalRepr n).data).all isDigitChar = true
  rw [List.all_append]
  refine Bool.and_eq_true_iff.mpr ⟨?_, decimalRepr_all_digits n⟩
  simp only [List.all_eq_true, List.mem_replicate]
  rintro c ⟨-, rfl⟩
  decide

/-! ## Reading a decimal string back (injectivity of the padded renderings) -/

/-- The number denoted by a big-endian list of digit characters. -/
def decVal (l : List Char) : Nat := l.foldl (fun a c => a * 10 + (c.toNat - 48)) 0

theorem decVal_foldl_shift (l : List Char) :
    ∀ a : Nat, l.foldl (fun a c => a * 10 + (c.toNat - 48)) a =
      a * 10 ^ l.length + decVal l := by
  induction l with
  | nil => intro a; simp [decVal]
  | cons c t ih =>
      intro a
      simp only [List.foldl_cons, List.length_cons, decVal]
      rw [ih, ih (0 * 10 + (c.toNat - 48))]
      ring

theorem decVal_append (l1 l2 : List Char) :
    decVal (l1 ++ l2) = decVal l1 * 10 ^ l2.length + decVal l2 := by
  unfold decVal
  rw [List.foldl_append, decVal_foldl_shift]
  rfl

theorem decVal_replicate_zero (k : Nat) : decVal (List.replicate k '0') = 0 := by
  induction k with
  | zero => rfl
  | succ k ih =>
      rw [List.replicate_succ]
      show decVal ([('0' : Char)] ++ List.replicate k '0') = 0
      rw [decVal_append, ih]
      have h1 : decVal ['0'] = 0 := by decide
      rw [h1]
      ring

theorem foldr_eq_ofDigits (L : List Nat) :
    L.foldr (fun d a => a * 10 + d) 0 = Nat.ofDigits 10 L := by
  induction L with
  | nil => simp [Nat.ofDigits]
  | cons d t ih =>
      rw [List.foldr_cons, ih, Nat.ofDigits_cons]
      ring

theorem decVal_decimalRepr (n : Nat) : decVal (decimalRepr n).data = n := by
  by_cases h0 : n = 0
  · subst h0; decide
  · unfold decimalRepr
    rw [if_neg h0]
    show decVal (((decDigitsNat n).reverse).map digitChar) = n
    rw [decDigitsNat_eq_digits]
    unfold decVal
    rw [List.foldl_map, List.foldl_reverse]
    have : ∀ L : List Nat, (∀ d ∈ L, d < 10) →
        L.foldr (fun d a => a * 10 + ((digitChar d).toNat - 48)) 0 =
          L.foldr (fun d a => a * 10 + d) 0 := by
      intro L hL
      induction L with
      | nil => rfl
      | cons d t ih =>
          simp only [List.foldr_cons]
          rw [ih (fun x hx => hL x (List.mem_cons_of_mem d hx)),
            digitChar_toNat (hL d (List.mem_cons_self d t))]
          omega
    rw [this _ (fun d hd => Nat.digits_lt_base (by norm_num) hd), foldr_eq_ofDigits,
      Nat.ofDigits_digits]

theorem decVal_padNum (w n : Nat) : decVal (padNum w n).data = n := by
  show decVal (List.replicate (w - (decimalRepr n).data.length) '0' ++
    (decimalRepr n).data) = n
  rw [decVal_append, decVal_replicate_zero, decVal_decimalRepr]
  ring

/-! ## Injectivity of the `%Y%m%d%H%M%S` rendering on valid datetimes -/

theorem padNum_length_of_lt {n w : Nat} (h : n < 10 ^ w) (hw : 0 < w) :
    (padNum w n).data.length = w :=
  padNum_length (decimalRepr_length_le h hw)

theorem fmtTs_data (t : DateTime) :
    (fmtTs t).data = (padNum 4 t.year).data ++ (padNum 2 t.month).data ++
      (padNum 2 t.day).data ++ (padNum 2 t.hour).data ++
      (padNum 2 t.minute).data ++ (padNum 2 t.second).data := by
  simp [fmtTs, String.data_append, List.append_assoc]

theorem fmtTs_length (t : DateTime) (h : t.Valid) : (fmtTs t).data.length = 14 := by
  obtain ⟨h1, h2, h3, h4, h5, h6, h7, h8, h9⟩ := h
  rw [fmtTs_data]
  simp only [List.length_append]
  rw [padNum_length_of_lt (by omega : t.year < 10 ^ 4) (by norm_num),
    padNum_length_of_lt (by omega : t.month < 10 ^ 2) (by norm_num),
    padNum_length_of_lt (by omega : t.day < 10 ^ 2) (by norm_num),
    padNum_length_of_lt (by omega : t.hour < 10 ^ 2) (by norm_num),
    padNum_length_of_lt (by omega : t.minute < 10 ^ 2) (by norm_num),
    padNum_length_of_lt (by omega : t.second < 10 ^ 2) (by norm_num)]

theorem decVal_fmtTs (t : DateTime) (h : t.Valid) :
    decVal (fmtTs t).data = t.key := by
  obtain ⟨h1, h2, h3, h4, h5, h6, h7, h8, h9⟩ := h
  rw [fmtTs_data]
  rw [decVal_append, decVal_append, decVal_append, decVal_append, decVal_append]
  rw [decVal_padNum, decVal_padNum, decVal_padNum, decVal_padNum, decVal_padNum,
    decVal_padNum]
  rw [padNum_length_of_lt (by omega : t.month < 10 ^ 2) (by norm_num),
    padNum_length_of_lt (by omega : t.day < 10 ^ 2) (by norm_num),
    padNum_length_of_lt (by omega : t.hour < 10 ^ 2) (by norm_num),
    padNum_length_of_lt (by omega : t.minute < 10 ^ 2) (by norm_num),
    padNum_length_of_lt (by omega : t.second < 10 ^ 2) (by norm_num)]
  unfold DateTime.key
  ring

theorem key_inj {t t' : DateTime} (h : t.Valid) (h' : t'.Valid)
    (he : t.key = t'.key) : t = t' := by
  obtain ⟨y, mo, d, hh, mi, s⟩ := t
  obtain ⟨y', mo', d', hh', mi', s'⟩ := t'
  obtain ⟨h1, h2, h3, h4, h5, h6, h7, h8, h9⟩ := h
  obtain ⟨h1', h2', h3', h4', h5', h6', h7', h8', h9'⟩ := h'
  simp only [DateTime.key] at he
  simp only at h1 h2 h3 h4 h5 h6 h7 h8 h9 h1' h2' h3' h4' h5' h6' h7' h8' h9'
  simp only [DateTime.mk.injEq]
  refine ⟨?_, ?_, ?_, ?_, ?_, ?_⟩ <;> omega

theorem fmtTs_inj {t t' : DateTime} (h : t.Valid) (h' : t'.Valid)
    (he : (fmtTs t).data = (fmtTs t').data) : t = t' := by
  apply key_inj h h'
  rw [← decVal_fmtTs t h, ← decVal_fmtTs t' h', he]

theorem storagePath_inj {t t' : DateTime} (h : t.Valid) (h' : t'.Valid)
    {name : String} (he : storagePath t name = storagePath t' name) : t = t' := by
  apply fmtTs_inj h h'
  have hd := congrArg String.data he
  simp only [storagePath, safeName, String.data_append, List.append_assoc] at hd
  have hd2 := List.append_cancel_left hd
  exact (List.append_inj hd2 (by rw [fmtTs_length t h, fmtTs_length t' h'])).1

/-! ## SQL LIKE lemmas -/

/-- A pattern with no `%` or `_` (matched literally by `LIKE`). -/
def noWild (l : List Char) : Bool := l.all (fun c => !(c == '%' || c == '_'))

theorem likeMatch_nil_nil : likeMatch [] [] = true := by
  rw [likeMatch.eq_def]

theorem likeMatch_nil_cons (d : Char) (t : List Char) :
    likeMatch [] (d :: t) = false := by
  rw [likeMatch.eq_def]

theorem likeMatch_pct_nil (ps : List Char) :
    likeMatch ('%' :: ps) [] = likeMatch ps [] := by
  rw [likeMatch.eq_def]
  simp

theorem likeMatch_pct_step (ps : List Char) (d : Char) (t : List Char) :
    likeMatch ('%' :: ps) (d :: t) =
      (likeMatch ps (d :: t) || likeMatch ('%' :: ps) t) := by
  rw [likeMatch.eq_def]
  simp

theorem likeMatch_lit_nil {c : Char} (hc : c ≠ '%') (ps : List Char) :
    likeMatch (c :: ps) [] = false := by
  rw [likeMatch.eq_def]
  simp [hc]

theorem likeMatch_lit_cons {c : Char} (hc : c ≠ '%') (hu : c ≠ '_')
    (ps : List Char) (d : Char) (t : List Char) :
    likeMatch (c :: ps) (d :: t) = ((c == d) && likeMatch ps t) := by
  rw [likeMatch.eq_def]
  simp [hc, hu]

theorem likeMatch_pct_nil_right : ∀ s : List Char, likeMatch ['%'] s = true := by
  intro s
  induction s with
  | nil => rw [likeMatch_pct_nil, likeMatch_nil_nil]
  | cons c t ih => rw [likeMatch_pct_step, ih, Bool.or_true]

theorem likeMatch_lit_pct {lit : List Char} (hw : noWild lit = true) :
    ∀ s : List Char, likeMatch (lit ++ ['%']) s = true ↔ lit <+: s := by
  induction lit with
  | nil =>
      intro s
      simp [likeMatch_pct_nil_right s]
  | cons c cs ih =>
      have hc : ¬(c = '%') ∧ ¬(c = '_') := by
        simp only [noWild, List.all_cons, Bool.and_eq_true, Bool.not_eq_true',
          Bool.or_eq_false_iff, beq_eq_false_iff_ne, ne_eq] at hw
        exact ⟨hw.1.1, hw.1.2⟩
      have hw' : noWild cs = true := by
        simp only [noWild, List.all_cons, Bool.and_eq_true] at hw
        exact hw.2
      intro s
      rw [List.cons_append]
      cases s with
      | nil =>
          rw [likeMatch_lit_nil hc.1]
          simp
      | cons d t =>
          rw [likeMatch_lit_cons hc.1 hc.2]
          simp only [Bool.and_eq_true, beq_iff_eq, List.cons_prefix_cons]
          rw [ih hw' t]

theorem likeMatch_pct_cons (p : List Char) :
    ∀ s : List Char, likeMatch ('%' :: p) s = true ↔
      ∃ t, t <:+ s ∧ likeMatch p t = true := by
  intro s
  induction s with
  | nil =>
      rw [likeMatch_pct_nil]
      constructor
      · intro h
        exact ⟨[], List.suffix_rfl, h⟩
      · rintro ⟨t, ht, hm⟩
        rw [List.suffix_nil] at ht
        subst ht
        exact hm
  | cons d u ih =>
      rw [likeMatch_pct_step]
      simp only [Bool.or_eq_true]
      constructor
      · rintro (h | h)
        · exact ⟨d :: u, List.suffix_rfl, h⟩
        · obtain ⟨t, ht, hm⟩ := ih.mp h
          exact ⟨t, ht.trans (List.suffix_cons d u), hm⟩
      · rintro ⟨t, ht, hm⟩
        rw [List.suffix_cons_iff] at ht
        rcases ht with rfl | ht
        · exact Or.inl hm
        · exact Or.inr (ih.mpr ⟨t, ht, hm⟩)

theorem likeMatch_infix {lit : List Char} (hw : noWild lit = true) (s : List Char) :
    likeMatch ('%' :: (lit ++ ['%'])) s = true ↔ lit <:+: s := by
  rw [likeMatch_pct_cons, List.infix_iff_prefix_suffix]
  constructor
  · rintro ⟨t, ht, hm⟩
    exact ⟨t, (likeMatch_lit_pct hw t).mp hm, ht⟩
  · rintro ⟨t, hp, ht⟩
    exact ⟨t, ht, (likeMatch_lit_pct hw t).mpr hp⟩

/-! ## Lowercasing lemmas -/

theorem lowAscii_toNat_not_upper (c : Char) :
    ¬(65 ≤ (lowAscii c).toNat ∧ (lowAscii c).toNat ≤ 90) := by
  unfold lowAscii
  by_cases h : 65 ≤ c.toNat ∧ c.toNat ≤ 90
  · rw [if_pos h, char_toNat_ofNat_lt (by omega)]
    omega
  · rw [if_neg h]
    exact h

theorem lowAscii_idem (c : Char) : lowAscii (lowAscii c) = lowAscii c := by
  have h := lowAscii_toNat_not_upper c
  rw [show lowAscii (lowAscii c) =
      if 65 ≤ (lowAscii c).toNat ∧ (lowAscii c).toNat ≤ 90 then
        Char.ofNat ((lowAscii c).toNat + 32)
      else lowAscii c from rfl,
    if_neg h]

theorem pyLower_idem (s : String) : pyLower (pyLower s) = pyLower s := by
  unfold pyLower
  simp only [List.map_map]
  congr 1
  exact List.map_congr_left (fun c _ => lowAscii_idem c)

theorem pyLower_data (s : String) : (pyLower s).data = s.data.map lowAscii := rfl

theorem pyLower_append (a b : String) :
    pyLower (a ++ b) = pyLower a ++ pyLower b := by
  apply String.ext
  simp [pyLower_data, String.data_append]

/-! ## `strip` lemmas -/

theorem pyStrip_data (s : String) :
    (pyStrip s).data =
      ((s.data.dropWhile Char.isWhitespace).reverse.dropWhile
        Char.isWhitespace).reverse := rfl

theorem dropWhile_head_not {p : α → Bool} {l : List α} :
    ∀ x ∈ (l.dropWhile p).head?, p x = false := by
  intro x hx
  cases hl : l.dropWhile p with
  | nil => rw [hl] at hx; simp at hx
  | cons a t =>
      rw [hl] at hx
      simp only [List.head?_cons, Option.mem_def, Option.some.injEq] at hx
      subst hx
      have := List.head?_dropWhile_not p l
      rw [hl] at this
      simpa using this

theorem dropWhile_of_head_not {p : α → Bool} {l : List α}
    (h : ∀ x ∈ l.head?, p x = false) : l.dropWhile p = l := by
  cases l with
  | nil => rfl
  | cons a t =>
      have ha : p a = false := h a (by simp)
      simp [List.dropWhile_cons, ha]

theorem pyStrip_idem (s : String) : pyStrip (pyStrip s) = pyStrip s := by
  apply String.ext
  rw [pyStrip_data, pyStrip_data]
  set p := Char.isWhitespace
  set a := s.data.dropWhile p with ha
  set m := (a.reverse.dropWhile p).reverse with hm
  have hmrev : m.reverse = a.reverse.dropWhile p := by rw [hm, List.reverse_reverse]
  have hma : m <+: a := by
    rw [← List.reverse_suffix, hmrev]
    exact List.dropWhile_suffix p
  have hstep1 : m.dropWhile p = m := by
    apply dropWhile_of_head_not
    intro x hx
    cases hm2 : m with
    | nil => rw [hm2] at hx; simp at hx
    | cons b t =>
        rw [hm2] at hx
        simp only [List.head?_cons, Option.mem_def, Option.some.injEq] at hx
        subst hx
        obtain ⟨u, hu⟩ := hma
        rw [hm2] at hu
        have hhead : ∀ y ∈ a.head?, p y = false := by
          rw [ha]; exact dropWhile_head_not
        apply hhead
        rw [← hu]
        simp
  rw [hstep1, hmrev]
  have hstep2 : (a.reverse.dropWhile p).dropWhile p = a.reverse.dropWhile p := by
    apply dropWhile_of_head_not
    exact dropWhile_head_not
  rw [hstep2, ← hmrev, List.reverse_reverse]

theorem pyStrip_eq_empty_of_all_ws {s : String}
    (h : s.data.all Char.isWhitespace = true) : pyStrip s = "" := by
  apply String.ext
  rw [pyStrip_data]
  have h1 : s.data.dropWhile Char.isWhitespace = [] := by
    rw [List.dropWhile_eq_nil_iff]
    intro x hx
    exact (List.all_eq_true.mp h) x hx
  rw [h1]
  rfl

/-! ## `generate_fake_doi` lemmas -/

/-- The month-scoped identifier stem `10.55555/rvu-preprints.<YYYY><MM>`. -/
def doiMonthLabel (year month : Nat) : String :=
  "10.55555/rvu-preprints." ++ decimalRepr year ++ padNum 2 month

/-- The count the spec prescribes: records whose identifier starts with the
exact month prefix `10.55555/rvu-preprints.<YYYY><MM>-`. -/
def doiPrefixCount (records : List Preprint) (year month : Nat) : Nat :=
  records.countP (fun r =>
    match r.doi with
    | some d => (doiMonthLabel year month ++ "-").data.isPrefixOf d.data
    | none => false)

theorem isDigitChar_not_wild {c : Char} (h : isDigitChar c = true) :
    (!(c == '%' || c == '_')) = true := by
  simp only [isDigitChar, Bool.and_eq_true, decide_eq_true_eq] at h
  simp only [Bool.not_eq_true', Bool.or_eq_false_iff, beq_eq_false_iff_ne, ne_eq]
  constructor
  · intro hc; subst hc; simp at h
  · intro hc; subst hc; simp at h

theorem noWild_of_all_digits {l : List Char} (h : l.all isDigitChar = true) :
    noWild l = true := by
  simp only [noWild, List.all_eq_true] at h ⊢
  intro c hc
  exact isDigitChar_not_wild (h c hc)

theorem noWild_append {a b : List Char} (ha : noWild a = true)
    (hb : noWild b = true) : noWild (a ++ b) = true := by
  simp only [noWild, List.all_append, Bool.and_eq_true]
  exact ⟨ha, hb⟩

theorem noWild_monthPre (year month : Nat) :
    noWild ((doiMonthLabel year month ++ "-").data) = true := by
  have h : (doiMonthLabel year month ++ "-").data =
      "10.55555/rvu-preprints.".data ++ ((decimalRepr year).data ++
        ((padNum 2 month).data ++ ['-'])) := by
    simp [doiMonthLabel, String.data_append, List.append_assoc]
  rw [h]
  refine noWild_append (by decide) (noWild_append ?_ (noWild_append ?_ (by decide)))
  · exact noWild_of_all_digits (decimalRepr_all_digits year)
  · exact noWild_of_all_digits (padNum_all_digits 2 month)

/-- The `LIKE`-based count in `generate_fake_doi` is the spec's
starts-with count. -/
theorem likeCount_eq_prefixCount (records : List Preprint) (year month : Nat) :
    records.countP (fun r =>
      match r.doi with
      | some d =>
          likeMatch (("10.55555/rvu-preprints" ++ "." ++
            (decimalRepr year ++ padNum 2 month) ++ "-%").data) d.data
      | none => false) = doiPrefixCount records year month := by
  apply List.countP_congr
  intro r _
  cases hd : r.doi with
  | none => simp
  | some d =>
      simp only
      have hsplit : ("10.55555/rvu-preprints" ++ "." ++
          (decimalRepr year ++ padNum 2 month) ++ "-%").data =
          (doiMonthLabel year month ++ "-").data ++ ['%'] := by
        simp [doiMonthLabel, String.data_append, List.append_assoc]
      rw [hsplit, likeMatch_lit_pct (noWild_monthPre year month),
        List.isPrefixOf_iff_prefix]

/-- `generate_fake_doi` in terms of the spec's count. -/
theorem generate_fake_doi_eq (records : List Preprint) (year month : Nat) :
    generate_fake_doi records year month =
      doiMonthLabel year month ++ "-" ++
        padNum 4 (doiPrefixCount records year month + 1) := by
  show "10.55555/rvu-preprints" ++ "." ++ (decimalRepr year ++ padNum 2 month) ++
      "-" ++
      padNum 4 (records.countP (fun r =>
        match r.doi with
        | some d =>
            likeMatch (("10.55555/rvu-preprints" ++ "." ++
              (decimalRepr year ++ padNum 2 month) ++ "-%").data) d.data
        | none => false) + 1) = _
  rw [likeCount_eq_prefixCount]
  apply String.ext
  simp [doiMonthLabel, String.data_append, List.append_assoc]

theorem generate_fake_doi_ne_empty (records : List Preprint) (year month : Nat) :
    generate_fake_doi records year month ≠ "" := by
  rw [generate_fake_doi_eq]
  intro h
  have hd := congrArg String.data h
  simp only [doiMonthLabel, String.data_append, List.append_assoc] at hd
  have := congrArg List.length hd
  simp only [List.length_append] at this
  simp at this

theorem matchesDoiShape_of_parts {Y M S : List Char} (hY : Y.length = 4)
    (hYd : Y.all isDigitChar = true) (hM : M.length = 2)
    (hMd : M.all isDigitChar = true) (hS : S.length = 4)
    (hSd : S.all isDigitChar = true) :
    matchesDoiShape ⟨"10.55555/rvu-preprints.".data ++ (Y ++ (M ++ ('-' :: S)))⟩ =
      true := by
  unfold matchesDoiShape
  have hP : ("10.55555/rvu-preprints.".data : List Char).length = 23 := by decide
  have hl : ("10.55555/rvu-preprints.".data ++ (Y ++ (M ++ ('-' :: S)))).length = 34 := by
    simp only [List.length_append, List.length_cons, hP, hY, hM, hS]
  have htake23 :
      ("10.55555/rvu-preprints.".data ++ (Y ++ (M ++ ('-' :: S)))).take 23 =
        "10.55555/rvu-preprints.".data := List.take_left' hP
  have hdrop23 :
      ("10.55555/rvu-preprints.".data ++ (Y ++ (M ++ ('-' :: S)))).drop 23 =
        Y ++ (M ++ ('-' :: S)) := List.drop_left' hP
  have hdrop29 :
      ("10.55555/rvu-preprints.".data ++ (Y ++ (M ++ ('-' :: S)))).drop 29 =
        '-' :: S := by
    have h1 : "10.55555/rvu-preprints.".data ++ (Y ++ (M ++ ('-' :: S))) =
        ("10.55555/rvu-preprints.".data ++ Y ++ M) ++ ('-' :: S) := by
      simp [List.append_assoc]
    rw [h1]
    exact List.drop_left' (by simp [hP, hY, hM])
  have hdrop30 :
      ("10.55555/rvu-preprints.".data ++ (Y ++ (M ++ ('-' :: S)))).drop 30 = S := by
    have h1 : "10.55555/rvu-preprints.".data ++ (Y ++ (M ++ ('-' :: S))) =
        ("10.55555/rvu-preprints.".data ++ Y ++ M ++ ['-']) ++ S := by
      simp [List.append_assoc]
    rw [h1]
    exact List.drop_left' (by simp [hP, hY, hM])
  rw [hl, htake23, hdrop23, hdrop29, hdrop30]
  have htake6 : (Y ++ (M ++ ('-' :: S))).take 6 = Y ++ M := by
    have h1 : Y ++ (M ++ ('-' :: S)) = (Y ++ M) ++ ('-' :: S) := by
      simp [List.append_assoc]
    rw [h1]
    exact List.take_left' (by simp [hY, hM])
  rw [htake6]
  simp only [List.take_succ_cons, List.take_zero, List.all_append, decide_True,
    beq_self_eq_true, Bool.and_true, Bool.true_and, hYd, hMd, hSd]

/-- Under realistic bounds, the generated identifier has the documented
shape. -/
theorem matchesDoiShape_generate {records : List Preprint} {year month : Nat}
    (hy1 : 1000 ≤ year) (hy2 : year ≤ 9999) (hm : month ≤ 99)
    (hc : doiPrefixCount records year month + 1 ≤ 9999) :
    matchesDoiShape (generate_fake_doi records year month) = true := by
  rw [generate_fake_doi_eq]
  have hY : (decimalRepr year).data.length = 4 :=
    decimalRepr_length_eq (by omega) (by omega)
  have hM : (padNum 2 month).data.length = 2 :=
    padNum_length_of_lt (by omega) (by norm_num)
  have hS : (padNum 4 (doiPrefixCount records year month + 1)).data.length = 4 :=
    padNum_length_of_lt (by omega) (by norm_num)
  have heq : doiMonthLabel year month ++ "-" ++
      padNum 4 (doiPrefixCount records year month + 1) =
      ⟨"10.55555/rvu-preprints.".data ++ ((decimalRepr year).data ++
        ((padNum 2 month).data ++ ('-' ::
          (padNum 4 (doiPrefixCount records year month + 1)).data)))⟩ := by
    apply String.ext
    simp [doiMonthLabel, String.data_append, List.append_assoc]
  rw [heq]
  exact matchesDoiShape_of_parts hY (decimalRepr_all_digits year) hM
    (padNum_all_digits 2 month) hS
    (padNum_all_digits 4 (doiPrefixCount records year month + 1))

/-! ## Listing lemmas -/

/-- The conjunction of the two optional filters of `list_preprints`, over the
already stripped-and-lowercased parameters. -/
def passesFilters (q c : String) (r : Preprint) : Bool :=
  (q == "" || (ilike r.title ("%" ++ q ++ "%") || ilike r.abstract ("%" ++ q ++ "%"))) &&
    (c == "" || r.category == c)

theorem listFiltered_eq_filter (st : AppState) (qRaw catRaw : String) :
    listFiltered st qRaw catRaw =
      st.records.filter
        (passesFilters (pyLower (pyStrip qRaw)) (pyLower (pyStrip catRaw))) := by
  unfold listFiltered passesFilters
  by_cases hq : pyLower (pyStrip qRaw) == ""
  · by_cases hc : pyLower (pyStrip catRaw) == ""
    · simp [hq, hc]
    · simp [hq, hc]
  · by_cases hc : pyLower (pyStrip catRaw) == ""
    · simp only [hq, hc, if_neg, if_pos, Bool.false_eq_true, ite_false, ite_true,
        Bool.false_or, Bool.true_or, Bool.and_true]
    · simp only [hq, hc, Bool.false_eq_true, ite_false, Bool.false_or,
        List.filter_filter]
      apply List.filter_congr
      intro r _
      rw [Bool.and_comm]

theorem mem_list_preprints {st : AppState} {qRaw catRaw : String} {r : Preprint} :
    r ∈ list_preprints st qRaw catRaw ↔ r ∈ listFiltered st qRaw catRaw := by
  unfold list_preprints
  exact List.mem_mergeSort

theorem uploadedDesc_trans (a b c : Preprint) (h1 : uploadedDesc a b = true)
    (h2 : uploadedDesc b c = true) : uploadedDesc a c = true := by
  simp only [uploadedDesc, decide_eq_true_eq] at h1 h2 ⊢
  omega

theorem uploadedDesc_total (a b : Preprint) :
    (uploadedDesc a b || uploadedDesc b a) = true := by
  simp only [uploadedDesc, Bool.or_eq_true, decide_eq_true_eq]
  omega

/-- `ilike` with a `%…%` pattern around a wildcard-free, already-lowercase
needle is case-insensitive substring containment. -/
theorem ilike_infix_iff {s q : String} (hw : noWild q.data = true)
    (hq : pyLower q = q) :
    ilike s ("%" ++ q ++ "%") = true ↔ q.data <:+: (pyLower s).data := by
  unfold ilike
  have h1 : (pyLower ("%" ++ q ++ "%")).data = '%' :: (q.data ++ ['%']) := by
    rw [pyLower_append, pyLower_append, hq]
    have h2 : pyLower "%" = "%" := rfl
    rw [h2]
    simp [String.data_append]
  rw [h1, likeMatch_infix hw]

/-! ## Minting lemmas -/

theorem find?_setDoiFirst (pid : Nat) (d : String) (l : List Preprint) :
    (setDoiFirst pid d l).find? (fun r => r.id == pid) =
      (l.find? (fun r => r.id == pid)).map (fun r => { r with doi := some d }) := by
  induction l with
  | nil => simp [setDoiFirst]
  | cons r rs ih =>
      by_cases h : r.id == pid
      · simp [setDoiFirst, h, List.find?_cons]
      · simp only [setDoiFirst, h, Bool.false_eq_true, ite_false]
        rw [List.find?_cons, List.find?_cons]
        simp only [h]
        exact ih

/-! ## Submission lemmas -/

/-- The three required inputs are present (the negation of the 400 check). -/
def ValidSubmission (form : UploadForm) : Prop :=
  pyStrip (form.title.getD "") ≠ "" ∧ pyStrip (form.abstract.getD "") ≠ "" ∧
    fileTruthy form.pdf_file = true

instance (form : UploadForm) : Decidable (ValidSubmission form) := by
  unfold ValidSubmission; infer_instance

/-- `original_name = file.filename or "paper.pdf"`. -/
def originalNameOf (form : UploadForm) : String :=
  let f := form.pdf_file.getD ⟨"", []⟩
  if f.filename == "" then "paper.pdf" else f.filename

/-- The record built and persisted by a successful submission. -/
def submittedRow (blob : BlobStore) (now : DateTime) (st : AppState)
    (form : UploadForm) : Preprint :=
  { id := st.nextId,
    title := pyStrip (form.title.getD ""),
    abstract := pyStrip (form.abstract.getD ""),
    category := pyStrip (form.category.getD "uncategorized"),
    course_code := pyStrip (form.course_code.getD ""),
    authors := pyStrip (form.authors.getD ""),
    faculty := pyStrip (form.faculty.getD ""),
    pdf_filename := blob.publicUrl (storagePath now (originalNameOf form)),
    uploaded_at := now,
    version := 1,
    doi := if pyLower (form.mint_doi.getD "false") == "true" then
        some (generate_fake_doi st.records now.year now.month)
      else none,
    status := "submitted" }

theorem upload_preprint_400 (blob : BlobStore) (now : DateTime) (st : AppState)
    (form : UploadForm)
    (h : pyStrip (form.title.getD "") = "" ∨ pyStrip (form.abstract.getD "") = "" ∨
      fileTruthy form.pdf_file = false) :
    upload_preprint blob now st form =
      { status := 400, record := none,
        error := some "Missing required fields: title, abstract, pdf_file",
        state := st, blobWrites := [] } := by
  have hcond : (pyStrip (form.title.getD "") == "" ||
      pyStrip (form.abstract.getD "") == "" || !fileTruthy form.pdf_file) = true := by
    rcases h with h | h | h <;> simp [h]
  unfold upload_preprint
  rw [if_pos hcond]

theorem upload_preprint_cond_false {form : UploadForm} (hv : ValidSubmission form) :
    (pyStrip (form.title.getD "") == "" ||
      pyStrip (form.abstract.getD "") == "" || !fileTruthy form.pdf_file) = false := by
  obtain ⟨h1, h2, h3⟩ := hv
  simp [h1, h2, h3]

theorem upload_preprint_500 (blob : BlobStore) (now : DateTime) (st : AppState)
    (form : UploadForm) (e : String) (hv : ValidSubmission form)
    (h : blob.outcome = .exn e ∨ blob.outcome = .errDict e) :
    upload_preprint blob now st form =
      { status := 500, record := none,
        error := some ("Failed to upload PDF to Supabase: " ++ e),
        state := st, blobWrites := [storagePath now (originalNameOf form)] } := by
  unfold upload_preprint
  rw [if_neg (by rw [upload_preprint_cond_false hv]; exact Bool.false_ne_true)]
  rcases h with h | h <;> rw [h] <;> rfl

theorem upload_preprint_ok (blob : BlobStore) (now : DateTime) (st : AppState)
    (form : UploadForm) (hv : ValidSubmission form) (hb : blob.outcome = .ok) :
    upload_preprint blob now st form =
      { status := 201, record := some (submittedRow blob now st form),
        error := none,
        state := { records := st.records ++ [submittedRow blob now st form],
                   nextId := st.nextId + 1 },
        blobWrites := [storagePath now (originalNameOf form)] } := by
  unfold upload_preprint
  rw [if_neg (by rw [upload_preprint_cond_false hv]; exact Bool.false_ne_true)]
  rw [hb]
  rfl

/-! ## Example values used by witnesses and counterexamples -/

/-- A blob store whose next upload succeeds. -/
def okBlob : BlobStore := { outcome := .ok, publicUrl := fun p => "https://supa.example/" ++ p }

/-- A fixed submission instant. -/
def exNow : DateTime := ⟨2025, 11, 7, 9, 5, 3⟩

/-- A second, later instant. -/
def exNow2 : DateTime := ⟨2025, 12, 1, 0, 0, 0⟩

/-- A record with no identifier yet. -/
def exFresh : Preprint :=
  ⟨1, "Neural Nets", "about brains", "cs", "", "", "", "u",
    ⟨2025, 11, 1, 0, 0, 0⟩, 1, none, "submitted"⟩

/-- A record that already has an identifier. -/
def exMinted : Preprint :=
  ⟨1, "Graphs", "traversal", "cs", "", "", "", "u",
    ⟨2025, 11, 2, 0, 0, 0⟩, 1, some "10.55555/rvu-preprints.202511-0001", "submitted"⟩

/-! ## Claims -/

/-- C1: every minted identifier is
`10.55555/rvu-preprints.<YYYY><MM>-<NNNN>` where `<YYYY><MM>` is the current
UTC year and zero-padded month and `<NNNN>` is the 4-digit zero-padded
(count of records whose doi starts with the month prefix) + 1; the result
matches `^10\.55555/rvu-preprints\.\d{6}-\d{4}$` and its 6-digit segment is
the creation year+month; both the Submit mint path and the MintIdentifier
path produce exactly this string. -/
theorem claim1_doi_format (records : List Preprint) (year month : Nat)
    (hy1 : 1000 ≤ year) (hy2 : year ≤ 9999) (hm1 : 1 ≤ month) (hm2 : month ≤ 12)
    (hc : doiPrefixCount records year month + 1 ≤ 9999) :
    (generate_fake_doi records year month =
      "10.55555/rvu-preprints." ++ decimalRepr year ++ padNum 2 month ++ "-" ++
        padNum 4 (doiPrefixCount records year month + 1)) ∧
    matchesDoiShape (generate_fake_doi records year month) = true ∧
    (∀ (blob : BlobStore) (st : AppState) (form : UploadForm) (now : DateTime),
      ValidSubmission form → blob.outcome = .ok →
      pyLower (form.mint_doi.getD "false") = "true" →
      st.records = records → now.year = year → now.month = month →
      (upload_preprint blob now st form).record =
        some (submittedRow blob now st form) ∧
      (submittedRow blob now st form).doi =
        some (generate_fake_doi records year month) ∧
      (submittedRow blob now st form).uploaded_at = now) ∧
    (∀ (st : AppState) (pid : Nat) (r : Preprint) (now : DateTime),
      st.records = records → now.year = year → now.month = month →
      st.records.find? (fun x => x.id == pid) = some r → r.doi = none →
      ∃ st1, mint_doi st pid now =
        some (201, generate_fake_doi records year month, st1)) := by
  refine ⟨?_, ?_, ?_, ?_⟩
  · rw [generate_fake_doi_eq]
    rfl
  · exact matchesDoiShape_generate hy1 hy2 (by omega) hc
  · intro blob st form now hv hb hm hst hyy hmm
    refine ⟨by rw [upload_preprint_ok blob now st form hv hb], ?_, rfl⟩
    simp only [submittedRow, hm, beq_self_eq_true, if_pos, hst, hyy, hmm]
  · intro st pid r now hst hyy hmm hfind hdoi
    have ht : doiTruthy r.doi = false := by rw [hdoi]; rfl
    rw [hst] at hfind
    refine ⟨⟨setDoiFirst pid (generate_fake_doi records year month) records,
      st.nextId⟩, ?_⟩
    simp only [mint_doi, hst, hyy, hmm, hfind, ht, Bool.false_eq_true, ite_false]

/-- Witness for C1 at a concrete input (empty catalog, November 2025). -/
theorem claim1_doi_format_witness :
    (1000 ≤ 2025 ∧ 2025 ≤ 9999 ∧ 1 ≤ 11 ∧ 11 ≤ 12 ∧
      doiPrefixCount [] 2025 11 + 1 ≤ 9999) ∧
    (generate_fake_doi [] 2025 11 =
      "10.55555/rvu-preprints." ++ decimalRepr 2025 ++ padNum 2 11 ++ "-" ++
        padNum 4 (doiPrefixCount [] 2025 11 + 1)) ∧
    matchesDoiShape (generate_fake_doi [] 2025 11) = true :=
  ⟨⟨by norm_num, by norm_num, by norm_num, by norm_num, by decide⟩,
    (claim1_doi_format [] 2025 11 (by norm_num) (by norm_num) (by norm_num)
      (by norm_num) (by decide)).1,
    (claim1_doi_format [] 2025 11 (by norm_num) (by norm_num) (by norm_num)
      (by norm_num) (by decide)).2.1⟩

/-- C2: minting is idempotent. On a record that already has an identifier,
`mint_doi` returns it unchanged with HTTP 200 and no state change; on a
record without one, the first call returns 201 and a fresh identifier, and a
second call returns HTTP 200 with the identical payload and the unchanged
state. -/
theorem claim2_mint_idempotent (st : AppState) (pid : Nat) (now now2 : DateTime) :
    (∀ r d, st.records.find? (fun x => x.id == pid) = some r →
      r.doi = some d → d ≠ "" →
      mint_doi st pid now = some (200, d, st)) ∧
    (∀ r, st.records.find? (fun x => x.id == pid) = some r → r.doi = none →
      ∃ d1 st1, mint_doi st pid now = some (201, d1, st1) ∧
        mint_doi st1 pid now2 = some (200, d1, st1)) := by
  constructor
  · intro r d hfind hdoi hne
    have ht : doiTruthy (some d : Option String) = true := by
      simpa [doiTruthy] using hne
    simp only [mint_doi, hfind, hdoi, ht, ite_true, Option.getD_some]
  · intro r hfind hdoi
    have ht : doiTruthy r.doi = false := by rw [hdoi]; rfl
    set g := generate_fake_doi st.records now.year now.month with hg
    refine ⟨g, ⟨setDoiFirst pid g st.records, st.nextId⟩, ?_, ?_⟩
    · simp only [mint_doi, hfind, ht, Bool.false_eq_true, ite_false, hg]
    · have hfind1 : (setDoiFirst pid g st.records).find? (fun x => x.id == pid) =
          some { r with doi := some g } := by
        rw [find?_setDoiFirst, hfind]
        rfl
      have ht1 : doiTruthy (some g : Option String) = true := by
        have h2 := generate_fake_doi_ne_empty st.records now.year now.month
        rw [hg]
        simpa [doiTruthy] using h2
      simp only [mint_doi, hfind1, ht1, ite_true, Option.getD_some]

/-- Witness for C2: a state with an already-minted record (200 branch) and a
state with a fresh record (201 then 200 with the same payload). -/
theorem claim2_mint_idempotent_witness :
    (mint_doi ⟨[exMinted], 2⟩ 1 exNow =
      some (200, "10.55555/rvu-preprints.202511-0001", ⟨[exMinted], 2⟩)) ∧
    (∃ d1 st1, mint_doi ⟨[exFresh], 2⟩ 1 exNow = some (201, d1, st1) ∧
      mint_doi st1 1 exNow2 = some (200, d1, st1)) :=
  ⟨(claim2_mint_idempotent ⟨[exMinted], 2⟩ 1 exNow exNow2).1 exMinted
      "10.55555/rvu-preprints.202511-0001" (by decide) rfl (by decide),
    (claim2_mint_idempotent ⟨[exFresh], 2⟩ 1 exNow exNow2).2 exFresh
      (by decide) rfl⟩

/-- A record whose stored category is upper-case. -/
def exUpperCat : Preprint :=
  ⟨1, "Graph Algorithms", "a survey", "CS", "", "", "", "u",
    ⟨2025, 11, 1, 0, 0, 0⟩, 1, none, "submitted"⟩

/-- C3 counterexample: the category filter is NOT case-insensitive on the
stored side. A record with category `"CS"` differs from the filter `"cs"`
only in letter case, yet `list` with `category=cs` returns nothing, because
the handler lowercases only the query parameter and compares it with SQL
`=` against the stored value. -/
theorem claim3_counterexample :
    list_preprints ⟨[exUpperCat], 2⟩ "" "cs" = [] ∧
    exUpperCat ∈ (⟨[exUpperCat], 2⟩ : AppState).records ∧
    pyLower exUpperCat.category = pyLower "cs" ∧
    exUpperCat.category ≠ "cs" := by
  refine ⟨?_, by decide, by decide, by decide⟩
  unfold list_preprints
  have h : listFiltered ⟨[exUpperCat], 2⟩ "" "cs" = [] := by decide
  rw [h, List.mergeSort_nil]

/-- C3 (amended): membership in a `list` result is the AND of the two
optional filters; a wildcard-free substring query is matched
case-insensitively against title OR abstract, while the category filter
compares the lowercased parameter for exact (case-sensitive) equality with
the stored category. -/
theorem claim3_list_filter (st : AppState) (qRaw catRaw : String) (r : Preprint)
    (hw : noWild (pyLower (pyStrip qRaw)).data = true) :
    r ∈ list_preprints st qRaw catRaw ↔
      r ∈ st.records ∧
        (pyLower (pyStrip qRaw) = "" ∨
          (pyLower (pyStrip qRaw)).data <:+: (pyLower r.title).data ∨
          (pyLower (pyStrip qRaw)).data <:+: (pyLower r.abstract).data) ∧
        (pyLower (pyStrip catRaw) = "" ∨ r.category = pyLower (pyStrip catRaw)) := by
  rw [mem_list_preprints, listFiltered_eq_filter, List.mem_filter]
  unfold passesFilters
  simp only [Bool.and_eq_true, Bool.or_eq_true, beq_iff_eq]
  rw [ilike_infix_iff hw (pyLower_idem (pyStrip qRaw)),
    ilike_infix_iff hw (pyLower_idem (pyStrip qRaw))]

/-- Witness for C3 (amended) at a concrete state and query. -/
theorem claim3_list_filter_witness :
    noWild (pyLower (pyStrip "Neural")).data = true ∧
    (exFresh ∈ list_preprints ⟨[exFresh], 2⟩ "Neural" "" ↔
      exFresh ∈ (⟨[exFresh], 2⟩ : AppState).records ∧
        (pyLower (pyStrip "Neural") = "" ∨
          (pyLower (pyStrip "Neural")).data <:+: (pyLower exFresh.title).data ∨
          (pyLower (pyStrip "Neural")).data <:+: (pyLower exFresh.abstract).data) ∧
        (pyLower (pyStrip "") = "" ∨ exFresh.category = pyLower (pyStrip ""))) :=
  ⟨by decide, claim3_list_filter ⟨[exFresh], 2⟩ "Neural" "" exFresh (by decide)⟩

/-- A form whose category field is present but empty. -/
def blankCatForm : UploadForm :=
  ⟨some "T", some "A", some "", none, none, none, none, some ⟨"f.pdf", [0]⟩⟩

/-- A form with no category field at all. -/
def noCatForm : UploadForm :=
  ⟨some "T", some "A", none, none, none, none, none, some ⟨"f.pdf", [0]⟩⟩

/-- C4 counterexample: a Submit whose category input is present but empty
stores category `""`, not `"uncategorized"` — the handler's
`form.get("category", "uncategorized")` only defaults when the field is
absent. -/
theorem claim4_counterexample :
    ((upload_preprint okBlob exNow ⟨[], 1⟩ blankCatForm).record.map
      Preprint.category) = some "" ∧
    (upload_preprint okBlob exNow ⟨[], 1⟩ blankCatForm).status = 201 ∧
    ("" : String) ≠ "uncategorized" := by
  rw [upload_preprint_ok okBlob exNow ⟨[], 1⟩ blankCatForm (by decide) rfl]
  exact ⟨rfl, rfl, by decide⟩

/-- C4 (amended): the created record's category is `"uncategorized"` exactly
when the category field is absent from the form; a present value (even
blank) is stored stripped, and the same record is persisted in the
catalog. -/
theorem claim4_category_default (blob : BlobStore) (now : DateTime)
    (st : AppState) (form : UploadForm) (hv : ValidSubmission form)
    (hb : blob.outcome = .ok) :
    ∃ row, (upload_preprint blob now st form).record = some row ∧
      (upload_preprint blob now st form).state.records = st.records ++ [row] ∧
      (form.category = none → row.category = "uncategorized") ∧
      (∀ c, form.category = some c → row.category = pyStrip c) := by
  refine ⟨submittedRow blob now st form,
    by rw [upload_preprint_ok blob now st form hv hb],
    by rw [upload_preprint_ok blob now st form hv hb], ?_, ?_⟩
  · intro h
    simp only [submittedRow, h, Option.getD_none]
    decide
  · intro c h
    simp only [submittedRow, h, Option.getD_some]

/-- Witness for C4 (amended): a form without a category field gets
`"uncategorized"`. -/
theorem claim4_category_default_witness :
    ∃ row, (upload_preprint okBlob exNow ⟨[], 1⟩ noCatForm).record = some row ∧
      (upload_preprint okBlob exNow ⟨[], 1⟩ noCatForm).state.records =
        ([] : List Preprint) ++ [row] ∧
      (noCatForm.category = none → row.category = "uncategorized") ∧
      (∀ c, noCatForm.category = some c → row.category = pyStrip c) :=
  claim4_category_default okBlob exNow ⟨[], 1⟩ noCatForm (by decide) rfl

/-- C5: Submit returns 400 with no side effect (no blob write, no record)
whenever the stripped title, the stripped abstract, or the file is
missing/empty; with all three present it succeeds (201) even when every
optional field is absent. -/
theorem claim5_validation (blob : BlobStore) (now : DateTime) (st : AppState)
    (form : UploadForm) :
    (pyStrip (form.title.getD "") = "" ∨ pyStrip (form.abstract.getD "") = "" ∨
        fileTruthy form.pdf_file = false →
      (upload_preprint blob now st form).status = 400 ∧
      (upload_preprint blob now st form).state = st ∧
      (upload_preprint blob now st form).blobWrites = [] ∧
      (upload_preprint blob now st form).record = none) ∧
    (ValidSubmission form → blob.outcome = .ok →
      form.category = none → form.course_code = none → form.authors = none →
      form.faculty = none → form.mint_doi = none →
      (upload_preprint blob now st form).status = 201) := by
  constructor
  · intro h
    rw [upload_preprint_400 blob now st form h]
    exact ⟨rfl, rfl, rfl, rfl⟩
  · intro hv hb _ _ _ _ _
    rw [upload_preprint_ok blob now st form hv hb]

/-- Witness for C5: an empty-title submission is rejected with no side
effect; a minimal valid submission (no optional fields) succeeds. -/
theorem claim5_validation_witness :
    ((upload_preprint okBlob exNow ⟨[], 1⟩
        ⟨some "", some "A", none, none, none, none, none,
          some ⟨"f.pdf", [0]⟩⟩).status = 400 ∧
      (upload_preprint okBlob exNow ⟨[], 1⟩
        ⟨some "", some "A", none, none, none, none, none,
          some ⟨"f.pdf", [0]⟩⟩).state = ⟨[], 1⟩ ∧
      (upload_preprint okBlob exNow ⟨[], 1⟩
        ⟨some "", some "A", none, none, none, none, none,
          some ⟨"f.pdf", [0]⟩⟩).blobWrites = [] ∧
      (upload_preprint okBlob exNow ⟨[], 1⟩
        ⟨some "", some "A", none, none, none, none, none,
          some ⟨"f.pdf", [0]⟩⟩).record = none) ∧
    (upload_preprint okBlob exNow ⟨[], 1⟩ noCatForm).status = 201 :=
  ⟨(claim5_validation okBlob exNow ⟨[], 1⟩
      ⟨some "", some "A", none, none, none, none, none,
        some ⟨"f.pdf", [0]⟩⟩).1 (Or.inl (by decide)),
    (claim5_validation okBlob exNow ⟨[], 1⟩ noCatForm).2 (by decide) rfl rfl rfl
      rfl rfl rfl⟩

/-- C6: when the blob-store write fails (raised exception or error dict),
Submit aborts with HTTP 500 and persists no metadata: the catalog is
unchanged and no record is returned, so no record can reference the failed
blob. -/
theorem claim6_blob_failure (blob : BlobStore) (now : DateTime) (st : AppState)
    (form : UploadForm) (e : String) (hv : ValidSubmission form)
    (h : blob.outcome = .exn e ∨ blob.outcome = .errDict e) :
    (upload_preprint blob now st form).status = 500 ∧
    (upload_preprint blob now st form).state.records = st.records ∧
    (upload_preprint blob now st form).record = none := by
  rw [upload_preprint_500 blob now st form e hv h]
  exact ⟨rfl, rfl, rfl⟩

/-- Witness for C6: a concrete failing upload. -/
theorem claim6_blob_failure_witness :
    (upload_preprint ⟨.exn "boom", fun p => p⟩ exNow ⟨[], 1⟩ noCatForm).status = 500 ∧
    (upload_preprint ⟨.exn "boom", fun p => p⟩ exNow ⟨[], 1⟩
      noCatForm).state.records = ([] : List Preprint) ∧
    (upload_preprint ⟨.exn "boom", fun p => p⟩ exNow ⟨[], 1⟩ noCatForm).record =
      none :=
  claim6_blob_failure ⟨.exn "boom", fun p => p⟩ exNow ⟨[], 1⟩ noCatForm "boom"
    (by decide) (Or.inl rfl)

/-- C7: every valid Submit returns a record with `version = 1`,
`status = "submitted"` and an `uploaded_at` equal to the call's UTC instant,
hence lying between the call's start and end times. -/
theorem claim7_submit_fields (blob : BlobStore) (now : DateTime) (st : AppState)
    (form : UploadForm) (t1 t2 : Nat) (hv : ValidSubmission form)
    (hb : blob.outcome = .ok) (h1 : t1 ≤ now.key) (h2 : now.key ≤ t2) :
    (upload_preprint blob now st form).status = 201 ∧
    ∃ row, (upload_preprint blob now st form).record = some row ∧
      row.version = 1 ∧ row.status = "submitted" ∧ row.uploaded_at = now ∧
      t1 ≤ row.uploaded_at.key ∧ row.uploaded_at.key ≤ t2 := by
  rw [upload_preprint_ok blob now st form hv hb]
  exact ⟨rfl, submittedRow blob now st form, rfl, rfl, rfl, rfl, h1, h2⟩

/-- Witness for C7 at a concrete submission. -/
theorem claim7_submit_fields_witness :
    (upload_preprint okBlob exNow ⟨[], 1⟩ noCatForm).status = 201 ∧
    ∃ row, (upload_preprint okBlob exNow ⟨[], 1⟩ noCatForm).record = some row ∧
      row.version = 1 ∧ row.status = "submitted" ∧ row.uploaded_at = exNow ∧
      exNow.key - 1 ≤ row.uploaded_at.key ∧ row.uploaded_at.key ≤ exNow.key + 1 :=
  claim7_submit_fields okBlob exNow ⟨[], 1⟩ noCatForm (exNow.key - 1)
    (exNow.key + 1) (by decide) rfl (by omega) (by omega)

/-- Two records sharing one `uploaded_at`, in insertion order. -/
def exTie1 : Preprint :=
  ⟨1, "first", "a", "cs", "", "", "", "u", ⟨2025, 11, 1, 0, 0, 0⟩, 1, none,
    "submitted"⟩

/-- The later-inserted record with the same timestamp. -/
def exTie2 : Preprint :=
  ⟨2, "second", "b", "cs", "", "", "", "u", ⟨2025, 11, 1, 0, 0, 0⟩, 1, none,
    "submitted"⟩

/-- C8: every `list` result is ordered by `uploaded_at` descending, and any
two tied rows that pass the filters appear in insertion order (the stable
sort keeps the catalog's row order within equal timestamps). -/
theorem claim8_ordering (st : AppState) (qRaw catRaw : String) :
    (list_preprints st qRaw catRaw).Pairwise
      (fun a b => b.uploaded_at.key ≤ a.uploaded_at.key) ∧
    (∀ a b, List.Sublist [a, b] st.records →
      passesFilters (pyLower (pyStrip qRaw)) (pyLower (pyStrip catRaw)) a = true →
      passesFilters (pyLower (pyStrip qRaw)) (pyLower (pyStrip catRaw)) b = true →
      a.uploaded_at.key = b.uploaded_at.key →
      List.Sublist [a, b] (list_preprints st qRaw catRaw)) := by
  constructor
  · have h := List.sorted_mergeSort uploadedDesc_trans uploadedDesc_total
      (listFiltered st qRaw catRaw)
    unfold list_preprints
    exact h.imp (fun hab => by simpa [uploadedDesc] using hab)
  · intro a b hsub hpa hpb hkey
    unfold list_preprints
    apply List.pair_sublist_mergeSort uploadedDesc_trans uploadedDesc_total
    · simp [uploadedDesc, hkey]
    · rw [listFiltered_eq_filter]
      have hfab : [a, b].filter
          (passesFilters (pyLower (pyStrip qRaw)) (pyLower (pyStrip catRaw))) =
          [a, b] := by
        simp [hpa, hpb]
      rw [← hfab]
      exact List.Sublist.filter _ hsub

/-- Witness for C8: two tied records keep their insertion order in the
output. -/
theorem claim8_ordering_witness :
    (list_preprints ⟨[exTie1, exTie2], 3⟩ "" "").Pairwise
      (fun a b => b.uploaded_at.key ≤ a.uploaded_at.key) ∧
    List.Sublist [exTie1, exTie2] (list_preprints ⟨[exTie1, exTie2], 3⟩ "" "") :=
  ⟨(claim8_ordering ⟨[exTie1, exTie2], 3⟩ "" "").1,
    (claim8_ordering ⟨[exTie1, exTie2], 3⟩ "" "").2 exTie1 exTie2
      (List.Sublist.refl _) (by decide) (by decide) rfl⟩

/-- C9: the blob path is `preprints/<UTC-timestamp>_<name with spaces
replaced by underscores>`; the 14-digit second-resolution timestamp prefix
makes paths for the same filename at different seconds distinct, and a
successful Submit writes exactly that path. -/
theorem claim9_storage_path (now now2 : DateTime) (hv : now.Valid)
    (hv2 : now2.Valid) (hne : now ≠ now2) (name : String) :
    storagePath now name = "preprints/" ++ fmtTs now ++ "_" ++
      spaceToUnderscore name ∧
    (spaceToUnderscore name).data =
      name.data.map (fun c => if c = ' ' then '_' else c) ∧
    storagePath now name ≠ storagePath now2 name ∧
    (∀ (blob : BlobStore) (st : AppState) (form : UploadForm),
      ValidSubmission form → blob.outcome = .ok →
      (upload_preprint blob now st form).blobWrites =
        [storagePath now (originalNameOf form)]) := by
  refine ⟨rfl, rfl, fun h => hne (storagePath_inj hv hv2 h), ?_⟩
  intro blob st form hvf hb
  rw [upload_preprint_ok blob now st form hvf hb]

/-- Witness for C9: one-second-apart timestamps and a name with a space. -/
theorem claim9_storage_path_witness :
    storagePath exNow "my file.pdf" = "preprints/" ++ fmtTs exNow ++ "_" ++
      spaceToUnderscore "my file.pdf" ∧
    (spaceToUnderscore "my file.pdf").data =
      ("my file.pdf" : String).data.map (fun c => if c = ' ' then '_' else c) ∧
    storagePath exNow "my file.pdf" ≠
      storagePath ⟨2025, 11, 7, 9, 5, 4⟩ "my file.pdf" :=
  ⟨(claim9_storage_path exNow ⟨2025, 11, 7, 9, 5, 4⟩ (by decide) (by decide)
      (by decide) "my file.pdf").1,
    (claim9_storage_path exNow ⟨2025, 11, 7, 9, 5, 4⟩ (by decide) (by decide)
      (by decide) "my file.pdf").2.1,
    (claim9_storage_path exNow ⟨2025, 11, 7, 9, 5, 4⟩ (by decide) (by decide)
      (by decide) "my file.pdf").2.2.1⟩

/-- C10: title and abstract are stripped before validation and storage: a
whitespace-only title or abstract is rejected with 400 and no side effect,
and a stored record's title/abstract equal the stripped inputs and are
fixed points of stripping (no surrounding whitespace). -/
theorem claim10_strip_fields (blob : BlobStore) (now : DateTime) (st : AppState)
    (form : UploadForm) :
    ((∃ t, (form.title = some t ∨ form.abstract = some t) ∧
        t.data.all Char.isWhitespace = true) →
      (upload_preprint blob now st form).status = 400 ∧
      (upload_preprint blob now st form).state = st ∧
      (upload_preprint blob now st form).blobWrites = []) ∧
    (ValidSubmission form → blob.outcome = .ok →
      ∃ row, (upload_preprint blob now st form).record = some row ∧
        row.title = pyStrip (form.title.getD "") ∧
        row.abstract = pyStrip (form.abstract.getD "") ∧
        pyStrip row.title = row.title ∧ pyStrip row.abstract = row.abstract) := by
  constructor
  · rintro ⟨t, hft, hws⟩
    have h400 : pyStrip (form.title.getD "") = "" ∨
        pyStrip (form.abstract.getD "") = "" ∨ fileTruthy form.pdf_file = false := by
      rcases hft with hft | hft
      · exact Or.inl (by rw [hft]; exact pyStrip_eq_empty_of_all_ws hws)
      · exact Or.inr (Or.inl (by rw [hft]; exact pyStrip_eq_empty_of_all_ws hws))
    rw [upload_preprint_400 blob now st form h400]
    exact ⟨rfl, rfl, rfl⟩
  · intro hv hb
    refine ⟨submittedRow blob now st form,
      by rw [upload_preprint_ok blob now st form hv hb], rfl, rfl, ?_, ?_⟩
    · exact pyStrip_idem (form.title.getD "")
    · exact pyStrip_idem (form.abstract.getD "")

/-- Witness for C10: a whitespace-only title is rejected; a valid submission
with surrounding whitespace stores the stripped values. -/
theorem claim10_strip_fields_witness :
    ((upload_preprint okBlob exNow ⟨[], 1⟩
        ⟨some "   ", some "A", none, none, none, none, none,
          some ⟨"f.pdf", [0]⟩⟩).status = 400) ∧
    (∃ row, (upload_preprint okBlob exNow ⟨[], 1⟩
        ⟨some "  T ", some " A  ", none, none, none, none, none,
          some ⟨"f.pdf", [0]⟩⟩).record = some row ∧
      row.title = pyStrip (((⟨some "  T ", some " A  ", none, none, none, none,
        none, some ⟨"f.pdf", [0]⟩⟩ : UploadForm)).title.getD "") ∧
      row.abstract = pyStrip (((⟨some "  T ", some " A  ", none, none, none,
        none, none, some ⟨"f.pdf", [0]⟩⟩ : UploadForm)).abstract.getD "") ∧
      pyStrip row.title = row.title ∧ pyStrip row.abstract = row.abstract) :=
  ⟨((claim10_strip_fields okBlob exNow ⟨[], 1⟩
      ⟨some "   ", some "A", none, none, none, none, none,
        some ⟨"f.pdf", [0]⟩⟩).1 ⟨"   ", Or.inl rfl, by decide⟩).1,
    (claim10_strip_fields okBlob exNow ⟨[], 1⟩
      ⟨some "  T ", some " A  ", none, none, none, none, none,
        some ⟨"f.pdf", [0]⟩⟩).2 (by decide) rfl⟩

end RVU
